import Mathlib

/-!
Shallow embedding of `ladderapiproject/api/models.py` (Django model layer of
the mkw-ladder-api repository) together with proofs about its validators,
constraints and cascade semantics.

Conventions of the embedding:
* machine integers of Python become `Int` (unbounded, as Python ints are);
* system-assigned row identifiers become `Nat`;
* a Python function that may raise `ValidationError` becomes a function into
  `Except ValidationErr Unit` (or `Except ValidationErr α` when it yields a value);
* Django/database semantics that the source relies on declaratively
  (`UniqueConstraint`, `primary_key`, `on_delete=CASCADE`, `choices`,
  `full_clean` field-error attribution, `PositiveIntegerField`) are embedded as
  explicit executable operations on an explicit database state;
* the Python field named `match` is rendered `matchId` (`match` is a Lean keyword).
-/

/-- Embedding of Django's `ValidationError`: a message plus the `params`
dictionary; parameter values are rendered to strings. -/
structure ValidationErr where
  message : String
  params : List (String × String)
deriving Repr, DecidableEq

/-- `num_races_validator` from `models.py`: raises unless `0 ≤ value ≤ 12`. -/
def num_races_validator (value : Int) : Except ValidationErr Unit :=
  if value < 0 || value > 12 then
    .error ⟨"cannot have less than 0 or more than 12 races", [("value", toString value)]⟩
  else
    .ok ()

/-- ASCII digit test: the regex character class `[0-9]` used by `fc_validator`. -/
def isAsciiDigit (c : Char) : Bool := '0' ≤ c && c ≤ '9'

/-- `re.fullmatch(r'^[0-9]{4}-[0-9]{4}-[0-9]{4}$', ·) is not None`, unfolded on
the character list: the whole list must be four digits, a hyphen, four digits,
a hyphen, four digits, with nothing before or after. -/
def fcMatchesL : List Char → Bool
  | [a1, a2, a3, a4, s1, b1, b2, b3, b4, s2, d1, d2, d3, d4] =>
      s1 == '-' && s2 == '-' &&
        [a1, a2, a3, a4, b1, b2, b3, b4, d1, d2, d3, d4].all isAsciiDigit
  | _ => false

/-- The friend-code regex test on a `String`. -/
def fcMatches (s : String) : Bool := fcMatchesL s.data

/-- `fc_validator` from `models.py`: raises unless the whole string matches
`[0-9]{4}-[0-9]{4}-[0-9]{4}`. -/
def fc_validator (value : String) : Except ValidationErr Unit :=
  if fcMatches value then
    .ok ()
  else
    .error ⟨value ++ " is not a valid friend code", [("value", value)]⟩

/-- Specification-side reading of the friend-code pattern, for the refinement
claim: the string splits as three groups of four decimal digits separated by
single hyphens, with no extra characters. -/
def specFriendCode (s : String) : Prop :=
  ∃ g1 g2 g3 : List Char,
    g1.length = 4 ∧ g2.length = 4 ∧ g3.length = 4 ∧
    (∀ c ∈ g1 ++ g2 ++ g3, '0' ≤ c ∧ c ≤ '9') ∧
    s.data = g1 ++ '-' :: (g2 ++ '-' :: g3)

lemma length_eq_four_iff {l : List Char} :
    l.length = 4 ↔ ∃ a b c d, l = [a, b, c, d] := by
  constructor
  · intro h
    match l, h with
    | [a, b, c, d], _ => exact ⟨a, b, c, d, rfl⟩
  · rintro ⟨a, b, c, d, rfl⟩
    rfl

lemma isAsciiDigit_iff {c : Char} : isAsciiDigit c = true ↔ '0' ≤ c ∧ c ≤ '9' := by
  simp [isAsciiDigit]

lemma fcMatchesL_iff_groups (l : List Char) :
    fcMatchesL l = true ↔
      ∃ g1 g2 g3 : List Char,
        g1.length = 4 ∧ g2.length = 4 ∧ g3.length = 4 ∧
        (∀ c ∈ g1 ++ g2 ++ g3, '0' ≤ c ∧ c ≤ '9') ∧
        l = g1 ++ '-' :: (g2 ++ '-' :: g3) := by
  constructor
  · intro h
    unfold fcMatchesL at h
    split at h
    · rename_i a1 a2 a3 a4 s1 b1 b2 b3 b4 s2 d1 d2 d3 d4
      simp only [Bool.and_eq_true, beq_iff_eq, List.all_eq_true] at h
      obtain ⟨⟨hs1, hs2⟩, hdig⟩ := h
      refine ⟨[a1, a2, a3, a4], [b1, b2, b3, b4], [d1, d2, d3, d4], rfl, rfl, rfl, ?_, ?_⟩
      · intro c hc
        have : isAsciiDigit c = true := by
          apply hdig
          simp only [List.mem_append] at hc
          simp only [List.mem_cons, List.mem_singleton] at hc ⊢
          tauto
        exact isAsciiDigit_iff.mp this
      · simp [hs1, hs2]
    · exact absurd h (by simp)
  · rintro ⟨g1, g2, g3, h1, h2, h3, hdig, rfl⟩
    obtain ⟨a1, a2, a3, a4, rfl⟩ := length_eq_four_iff.mp h1
    obtain ⟨b1, b2, b3, b4, rfl⟩ := length_eq_four_iff.mp h2
    obtain ⟨d1, d2, d3, d4, rfl⟩ := length_eq_four_iff.mp h3
    show fcMatchesL [a1, a2, a3, a4, '-', b1, b2, b3, b4, '-', d1, d2, d3, d4] = true
    unfold fcMatchesL
    simp only [Bool.and_eq_true, beq_iff_eq, List.all_eq_true]
    refine ⟨by simp, ?_⟩
    intro c hc
    apply isAsciiDigit_iff.mpr
    apply hdig
    simp only [List.mem_append, List.mem_cons, List.mem_singleton] at hc ⊢
    tauto

lemma fc_validator_ok_iff (s : String) :
    fc_validator s = .ok () ↔ specFriendCode s := by
  unfold fc_validator specFriendCode
  rw [← fcMatchesL_iff_groups s.data]
  unfold fcMatches
  by_cases h : fcMatchesL s.data = true
  · simp [h]
  · simp [h]

/-- Code values of `EventFormat(models.TextChoices)`. -/
def EventFormat.codes : List String := ["FFA", "2V2", "3V3", "4V4", "6V6"]

/-- Code values of `PlayerDivision(models.TextChoices)`. -/
def PlayerDivision.codes : List String := ["IRON", "BRONZE", "SILVER", "GOLD", "PLATINUM"]

/-- Code values of `TournamentType(models.TextChoices)`. -/
def TournamentType.codes : List String := ["WAR", "MOGI"]

/-- `Tournament` row: auto id, unique name, date (timestamp), type code with
default `TournamentType.MOGI`. -/
structure TournamentRow where
  id : Nat
  tournament_name : String
  tournament_date : Int
  tournament_type : String := "MOGI"
deriving Repr, DecidableEq

/-- `Team` row: auto id, unique name, unique tag, integer division. -/
structure TeamRow where
  id : Nat
  team_name : String
  team_tag : String
  division : Int
deriving Repr, DecidableEq

/-- `TeamStats` row: the `team` foreign key is the primary key; every counter
field declares `default=0`. -/
structure TeamStatsRow where
  team : Nat
  base_mmr : Int := 0
  current_mmr : Int := 0
  peak_mmr : Int := 0
  lowest_mmr : Int := 0
  max_gain_mmr : Int := 0
  max_loss_mmr : Int := 0
  diff_last_ten_mmr : Int := 0
  wins : Int := 0
  losses : Int := 0
  top_score : Int := 0
  total_matches : Int := 0
deriving Repr, DecidableEq

/-- `Match` row: auto id, two `Team` foreign keys (CASCADE), date, image URL,
`Tournament` foreign key (CASCADE). -/
structure MatchRow where
  id : Nat
  team_one : Nat
  team_two : Nat
  match_date : Int
  match_table_image : String
  tournament : Nat
deriving Repr, DecidableEq

/-- `MatchTeamData` row; the Python field `match` is rendered `matchId`. -/
structure MatchTeamDataRow where
  id : Nat
  matchId : Nat
  team : Nat
  win : Bool
  team_score : Int
  penalty : Int
  race_amount : Int
deriving Repr, DecidableEq

/-- `Player` row: `Team` foreign key (CASCADE), unique discord id, unique name,
country code, division code with default `PlayerDivision.IRON`, strikes with
default 0, name-change timestamp, validated friend code. -/
structure PlayerRow where
  id : Nat
  team : Nat
  discord : Int
  player_name : String
  country : String
  division : String := "IRON"
  strikes : Int := 0
  name_change_date : Int
  friend_code : String
deriving Repr, DecidableEq

/-- `MatchPlayerData` row; unique on `(player, match)`. -/
structure MatchPlayerDataRow where
  id : Nat
  player : Nat
  matchId : Nat
  player_score : Int
  races_played : Int
  subbed_in : Int
  subbed_out : Int
deriving Repr, DecidableEq

/-- `WarTournamentWinners` row: the `tournament` foreign key is the primary
key; `final_match` is a `Match` foreign key (CASCADE). -/
structure WarTournamentWinnersRow where
  tournament : Nat
  final_match : Nat
deriving Repr, DecidableEq

/-- `Event` row: format code with default `EventFormat.f2v2`, validated race
amount, date, image URL, `Tournament` foreign key (CASCADE), tier, subs. -/
structure EventRow where
  id : Nat
  event_format : String := "2V2"
  event_race_amount : Int
  event_date : Int
  event_table_image : String
  tournament : Nat
  tier : Int
  subs : Int
deriving Repr, DecidableEq

/-- `MogiTournamentWinners` row: the `tournament` foreign key is the primary
key; `final_event` is an `Event` foreign key (CASCADE). -/
structure MogiTournamentWinnersRow where
  tournament : Nat
  final_event : Nat
deriving Repr, DecidableEq

/-- `EventPlayerData` row; unique on `(event, player)`; `before_event_mmr` and
`after_event_mmr` are `PositiveIntegerField`s; `ranking` is nullable. -/
structure EventPlayerDataRow where
  id : Nat
  event : Nat
  player : Nat
  team : String
  ranking : Option Int
  multiplier : Float
  score : Int
  races_played : Int
  subbed_in : Int
  subbed_out : Int
  before_event_mmr : Int
  after_event_mmr : Int
  before_division : String
  after_division : String
  win : Bool
deriving Repr

/-- `EventPlayerStats` row: the `player` foreign key is the primary key; every
counter field declares `default=0`. -/
structure EventPlayerStatsRow where
  player : Nat
  base_mmr : Int := 0
  current_mmr : Int := 0
  peak_mmr : Int := 0
  lowest_mmr : Int := 0
  max_gain_mmr : Int := 0
  max_loss_mmr : Int := 0
  diff_last_ten_mmr : Int := 0
  wins : Int := 0
  losses : Int := 0
  top_score : Int := 0
  total_events : Int := 0
deriving Repr, DecidableEq

/-- `ApiKeys` row: the `player` foreign key is the primary key. -/
structure ApiKeysRow where
  player : Nat
  api_key : String
deriving Repr, DecidableEq

/-- `Permissions` row: unique name, unique value. -/
structure PermissionsRow where
  id : Nat
  permission_name : String
  permission_value : Int
deriving Repr, DecidableEq

/-- `PlayerPermissions` row; unique on `(player, permission)`. -/
structure PlayerPermissionsRow where
  id : Nat
  player : Nat
  permission : Nat
deriving Repr, DecidableEq

/-- The database state: one logical table per model of `models.py`; the table
of `Match` rows is named `matchRows` (`matches` is a reserved token in Lean). -/
structure DB where
  tournaments : List TournamentRow := []
  teams : List TeamRow := []
  teamStats : List TeamStatsRow := []
  matchRows : List MatchRow := []
  matchTeamData : List MatchTeamDataRow := []
  players : List PlayerRow := []
  matchPlayerData : List MatchPlayerDataRow := []
  warWinners : List WarTournamentWinnersRow := []
  events : List EventRow := []
  mogiWinners : List MogiTournamentWinnersRow := []
  eventPlayerData : List EventPlayerDataRow := []
  eventPlayerStats : List EventPlayerStatsRow := []
  apiKeys : List ApiKeysRow := []
  permissions : List PermissionsRow := []
  playerPermissions : List PlayerPermissionsRow := []
deriving Repr

/-- The empty database state. -/
def emptyDB : DB := {}

/-- Django validation of a `PositiveIntegerField`: `MinValueValidator(0)`. -/
def positiveIntFieldCheck (value : Int) : Except ValidationErr Unit :=
  if value < 0 then
    .error ⟨"Ensure this value is greater than or equal to 0.",
            [("limit_value", "0"), ("value", toString value)]⟩
  else
    .ok ()

/-- `MinValueValidator(1, "division cannot be less than 1")` on `Team.division`. -/
def team_division_validator (value : Int) : Except ValidationErr Unit :=
  if value < 1 then
    .error ⟨"division cannot be less than 1", [("limit_value", "1"), ("value", toString value)]⟩
  else
    .ok ()

/-- Django validation of a text field declared with `choices=`: the stored code
must be one of the declared codes. -/
def validateChoice (codes : List String) (value : String) : Except ValidationErr Unit :=
  if codes.contains value then
    .ok ()
  else
    .error ⟨"Value " ++ value ++ " is not a valid choice.", [("value", value)]⟩

/-- Helper for `full_clean` error collection: a failed field validator
contributes its error keyed by the field's name, a passing one contributes
nothing. -/
def fieldErrs (field : String) (r : Except ValidationErr Unit) : List (String × ValidationErr) :=
  match r with
  | .ok _ => []
  | .error e => [(field, e)]

/-- `full_clean` of `MatchPlayerData`, restricted to the validators declared in
`models.py` (`num_races_validator` on the three race/sub fields); framework
format validators of fields with no declared validator contribute nothing. -/
def MatchPlayerDataRow.fullClean (r : MatchPlayerDataRow) : List (String × ValidationErr) :=
  fieldErrs "races_played" (num_races_validator r.races_played) ++
  fieldErrs "subbed_in" (num_races_validator r.subbed_in) ++
  fieldErrs "subbed_out" (num_races_validator r.subbed_out)

/-- `full_clean` of `EventPlayerData`: `num_races_validator` on the three
race/sub fields, the `PositiveIntegerField` bound on the two MMR fields, and
the `choices` check on the two division fields. -/
def EventPlayerDataRow.fullClean (r : EventPlayerDataRow) : List (String × ValidationErr) :=
  fieldErrs "races_played" (num_races_validator r.races_played) ++
  fieldErrs "subbed_in" (num_races_validator r.subbed_in) ++
  fieldErrs "subbed_out" (num_races_validator r.subbed_out) ++
  fieldErrs "before_event_mmr" (positiveIntFieldCheck r.before_event_mmr) ++
  fieldErrs "after_event_mmr" (positiveIntFieldCheck r.after_event_mmr) ++
  fieldErrs "before_division" (validateChoice PlayerDivision.codes r.before_division) ++
  fieldErrs "after_division" (validateChoice PlayerDivision.codes r.after_division)

/-- `full_clean` of `Event` (declared validators: the `choices` check on
`event_format` and `num_races_validator` on `event_race_amount`; the framework
URL validator on `event_table_image` is outside the embedded claims and is not
modelled). -/
def EventRow.fullClean (r : EventRow) : List (String × ValidationErr) :=
  fieldErrs "event_format" (validateChoice EventFormat.codes r.event_format) ++
  fieldErrs "event_race_amount" (num_races_validator r.event_race_amount)

/-- `full_clean` of `Player` (declared validators: the `choices` check on
`division` and `fc_validator` on `friend_code`; the framework country-code
check is outside the embedded claims and is not modelled). -/
def PlayerRow.fullClean (r : PlayerRow) : List (String × ValidationErr) :=
  fieldErrs "division" (validateChoice PlayerDivision.codes r.division) ++
  fieldErrs "friend_code" (fc_validator r.friend_code)

/-- `full_clean` of `Tournament` (declared validators: the `choices` check on
`tournament_type`). -/
def TournamentRow.fullClean (r : TournamentRow) : List (String × ValidationErr) :=
  fieldErrs "tournament_type" (validateChoice TournamentType.codes r.tournament_type)

/-- `full_clean` of `Team` (declared validators: `MinValueValidator(1)` on
`division`). -/
def TeamRow.fullClean (r : TeamRow) : List (String × ValidationErr) :=
  fieldErrs "division" (team_division_validator r.division)

/-- `full_clean` of `TeamStats`: no field of `TeamStats` declares a validator,
so validation never produces an error. -/
def TeamStatsRow.fullClean (_ : TeamStatsRow) : List (String × ValidationErr) := []

/-- `full_clean` of `EventPlayerStats`: no field declares a validator. -/
def EventPlayerStatsRow.fullClean (_ : EventPlayerStatsRow) : List (String × ValidationErr) := []

/-- `Match.clean` from `models.py`: raises when `team_one == team_two`
(Django compares model references by primary key). -/
def MatchRow.clean (m : MatchRow) : Except ValidationErr Unit :=
  if m.team_one == m.team_two then
    .error ⟨"a team cannot war itself outside of inclans",
            [("team_one", toString m.team_one), ("team_two", toString m.team_two)]⟩
  else
    .ok ()

/-- A database integrity error naming the violated constraint. -/
inductive DbError where
  | uniqueViolation (constraintName : String)
deriving Repr, DecidableEq

/-- Insert a `Tournament` row, enforcing `tournament_name`'s `unique=True`. -/
def DB.insertTournament (db : DB) (r : TournamentRow) : Except DbError DB :=
  if db.tournaments.any (fun x => x.tournament_name == r.tournament_name) then
    .error (.uniqueViolation "tournament_name")
  else
    .ok { db with tournaments := r :: db.tournaments }

/-- Insert a `Team` row, enforcing the `unique=True` of name and tag. -/
def DB.insertTeam (db : DB) (r : TeamRow) : Except DbError DB :=
  if db.teams.any (fun x => x.team_name == r.team_name || x.team_tag == r.team_tag) then
    .error (.uniqueViolation "team_name_or_tag")
  else
    .ok { db with teams := r :: db.teams }

/-- Insert a `TeamStats` row, enforcing `primary_key=True` on the `team`
foreign key: a second row for the same team is a key conflict. -/
def DB.insertTeamStats (db : DB) (r : TeamStatsRow) : Except DbError DB :=
  if db.teamStats.any (fun x => x.team == r.team) then
    .error (.uniqueViolation "teamstats_pk_team")
  else
    .ok { db with teamStats := r :: db.teamStats }

/-- Insert a `Match` row (no uniqueness declared on `Match`). -/
def DB.insertMatch (db : DB) (r : MatchRow) : Except DbError DB :=
  .ok { db with matchRows := r :: db.matchRows }

/-- Insert a `MatchTeamData` row (no uniqueness declared). -/
def DB.insertMatchTeamData (db : DB) (r : MatchTeamDataRow) : Except DbError DB :=
  .ok { db with matchTeamData := r :: db.matchTeamData }

/-- Insert a `Player` row, enforcing the `unique=True` of discord and name. -/
def DB.insertPlayer (db : DB) (r : PlayerRow) : Except DbError DB :=
  if db.players.any (fun x => x.discord == r.discord || x.player_name == r.player_name) then
    .error (.uniqueViolation "player_discord_or_name")
  else
    .ok { db with players := r :: db.players }

/-- Insert a `MatchPlayerData` row, enforcing the declared
`UniqueConstraint(fields=['player', 'match'], name='unique_match_player')`. -/
def DB.insertMatchPlayerData (db : DB) (r : MatchPlayerDataRow) : Except DbError DB :=
  if db.matchPlayerData.any (fun x => x.player == r.player && x.matchId == r.matchId) then
    .error (.uniqueViolation "unique_match_player")
  else
    .ok { db with matchPlayerData := r :: db.matchPlayerData }

/-- Insert a `WarTournamentWinners` row, enforcing `primary_key=True` on the
`tournament` foreign key. -/
def DB.insertWarTournamentWinners (db : DB) (r : WarTournamentWinnersRow) : Except DbError DB :=
  if db.warWinners.any (fun x => x.tournament == r.tournament) then
    .error (.uniqueViolation "warwinners_pk_tournament")
  else
    .ok { db with warWinners := r :: db.warWinners }

/-- Insert an `Event` row (no uniqueness declared). -/
def DB.insertEvent (db : DB) (r : EventRow) : Except DbError DB :=
  .ok { db with events := r :: db.events }

/-- Insert a `MogiTournamentWinners` row, enforcing `primary_key=True` on the
`tournament` foreign key. -/
def DB.insertMogiTournamentWinners (db : DB) (r : MogiTournamentWinnersRow) : Except DbError DB :=
  if db.mogiWinners.any (fun x => x.tournament == r.tournament) then
    .error (.uniqueViolation "mogiwinners_pk_tournament")
  else
    .ok { db with mogiWinners := r :: db.mogiWinners }

/-- Insert an `EventPlayerData` row, enforcing the declared
`UniqueConstraint(fields=['event', 'player'], name='unique_event_player')`. -/
def DB.insertEventPlayerData (db : DB) (r : EventPlayerDataRow) : Except DbError DB :=
  if db.eventPlayerData.any (fun x => x.event == r.event && x.player == r.player) then
    .error (.uniqueViolation "unique_event_player")
  else
    .ok { db with eventPlayerData := r :: db.eventPlayerData }

/-- Insert an `EventPlayerStats` row, enforcing `primary_key=True` on the
`player` foreign key. -/
def DB.insertEventPlayerStats (db : DB) (r : EventPlayerStatsRow) : Except DbError DB :=
  if db.eventPlayerStats.any (fun x => x.player == r.player) then
    .error (.uniqueViolation "eventplayerstats_pk_player")
  else
    .ok { db with eventPlayerStats := r :: db.eventPlayerStats }

/-- Insert an `ApiKeys` row, enforcing the `player` primary key and the
`unique=True` of `api_key`. -/
def DB.insertApiKeys (db : DB) (r : ApiKeysRow) : Except DbError DB :=
  if db.apiKeys.any (fun x => x.player == r.player || x.api_key == r.api_key) then
    .error (.uniqueViolation "apikeys_pk_or_key")
  else
    .ok { db with apiKeys := r :: db.apiKeys }

/-- Insert a `Permissions` row, enforcing the `unique=True` of name and value. -/
def DB.insertPermissions (db : DB) (r : PermissionsRow) : Except DbError DB :=
  if db.permissions.any (fun x => x.permission_name == r.permission_name || x.permission_value == r.permission_value) then
    .error (.uniqueViolation "permission_name_or_value")
  else
    .ok { db with permissions := r :: db.permissions }

/-- Insert a `PlayerPermissions` row, enforcing the declared
`UniqueConstraint(fields=['player', 'permission'], name='unique_player_permission')`. -/
def DB.insertPlayerPermissions (db : DB) (r : PlayerPermissionsRow) : Except DbError DB :=
  if db.playerPermissions.any (fun x => x.player == r.player && x.permission == r.permission) then
    .error (.uniqueViolation "unique_player_permission")
  else
    .ok { db with playerPermissions := r :: db.playerPermissions }

/-- Cascade deletion of a `Team` (every foreign key into `Team` declares
`on_delete=CASCADE`, and the cascade closes transitively): deleting team `t`
removes the team, its `TeamStats`, its `Players`, every `Match` with `t` as
`team_one` or `team_two`, every `MatchTeamData` of `t` or of a removed match,
every `MatchPlayerData` of a removed match or removed player, every
`WarTournamentWinners` whose `final_match` was removed, and the
`EventPlayerData`/`EventPlayerStats`/`ApiKeys`/`PlayerPermissions` rows of
removed players. -/
def DB.deleteTeam (db : DB) (t : Nat) : DB :=
  let deadMatchIds := (db.matchRows.filter (fun m => m.team_one == t || m.team_two == t)).map (·.id)
  let deadPlayerIds := (db.players.filter (fun p => p.team == t)).map (·.id)
  { db with
    teams := db.teams.filter (fun x => x.id != t)
    teamStats := db.teamStats.filter (fun x => x.team != t)
    players := db.players.filter (fun p => p.team != t)
    matchRows := db.matchRows.filter (fun m => !(m.team_one == t || m.team_two == t))
    matchTeamData := db.matchTeamData.filter
      (fun x => x.team != t && !deadMatchIds.contains x.matchId)
    matchPlayerData := db.matchPlayerData.filter
      (fun x => !deadMatchIds.contains x.matchId && !deadPlayerIds.contains x.player)
    warWinners := db.warWinners.filter (fun w => !deadMatchIds.contains w.final_match)
    eventPlayerData := db.eventPlayerData.filter (fun x => !deadPlayerIds.contains x.player)
    eventPlayerStats := db.eventPlayerStats.filter (fun x => !deadPlayerIds.contains x.player)
    apiKeys := db.apiKeys.filter (fun x => !deadPlayerIds.contains x.player)
    playerPermissions := db.playerPermissions.filter (fun x => !deadPlayerIds.contains x.player) }

/-- Cascade deletion of a `Tournament`: deleting tournament `t` removes the
tournament, its `Matches` and `Events`, the `MatchTeamData`/`MatchPlayerData`
of removed matches, the `EventPlayerData` of removed events, and the
`WarTournamentWinners`/`MogiTournamentWinners` keyed by `t` or pointing at a
removed final match/event. -/
def DB.deleteTournament (db : DB) (t : Nat) : DB :=
  let deadMatchIds := (db.matchRows.filter (fun m => m.tournament == t)).map (·.id)
  let deadEventIds := (db.events.filter (fun e => e.tournament == t)).map (·.id)
  { db with
    tournaments := db.tournaments.filter (fun x => x.id != t)
    matchRows := db.matchRows.filter (fun m => m.tournament != t)
    events := db.events.filter (fun e => e.tournament != t)
    matchTeamData := db.matchTeamData.filter (fun x => !deadMatchIds.contains x.matchId)
    matchPlayerData := db.matchPlayerData.filter (fun x => !deadMatchIds.contains x.matchId)
    warWinners := db.warWinners.filter
      (fun w => w.tournament != t && !deadMatchIds.contains w.final_match)
    mogiWinners := db.mogiWinners.filter
      (fun w => w.tournament != t && !deadEventIds.contains w.final_event)
    eventPlayerData := db.eventPlayerData.filter (fun x => !deadEventIds.contains x.event) }

/-- At most one row of `l` has key `k`, for every `k`. -/
def atMostOnePer {α : Type} (key : α → Nat) (l : List α) : Prop :=
  ∀ k : Nat, (l.filter (fun x => key x == k)).length ≤ 1

/-- The singleton-per-parent shape of the four identifying-key tables:
at most one `TeamStats` row per team, one `EventPlayerStats` row per player,
and one `WarTournamentWinners` / `MogiTournamentWinners` row per tournament. -/
def singletonPerParent (db : DB) : Prop :=
  atMostOnePer (·.team) db.teamStats ∧
  atMostOnePer (·.player) db.eventPlayerStats ∧
  atMostOnePer (·.tournament) db.warWinners ∧
  atMostOnePer (·.tournament) db.mogiWinners

lemma atMostOnePer_nil {α : Type} (key : α → Nat) : atMostOnePer key ([] : List α) := by
  intro k
  simp

lemma atMostOnePer_cons {α : Type} {key : α → Nat} {l : List α} {r : α}
    (hnew : l.any (fun x => key x == key r) = false) (hl : atMostOnePer key l) :
    atMostOnePer key (r :: l) := by
  intro k
  rw [List.filter_cons]
  by_cases hk : (key r == k) = true
  · have hkr : key r = k := beq_iff_eq.mp hk
    have hnil : l.filter (fun x => key x == k) = [] := by
      rw [List.filter_eq_nil_iff]
      intro x hx
      have := (List.any_eq_false.mp hnew) x hx
      simpa [← hkr] using this
    simp [hk, hnil]
  · have hk' : (key r == k) = false := by
      exact Bool.not_eq_true _ ▸ (by simpa using hk)
    simp only [hk', Bool.false_eq_true, if_false]
    exact hl k

lemma atMostOnePer_filter {α : Type} {key : α → Nat} {l : List α}
    (hl : atMostOnePer key l) (p : α → Bool) : atMostOnePer key (l.filter p) := by
  intro k
  calc ((l.filter p).filter (fun x => key x == k)).length
      ≤ (l.filter (fun x => key x == k)).length :=
        ((List.filter_sublist l).filter _).length_le
    _ ≤ 1 := hl k

lemma spp_insertTournament {db db' : DB} {r : TournamentRow}
    (h : db.insertTournament r = .ok db') (hs : singletonPerParent db) :
    singletonPerParent db' := by
  unfold DB.insertTournament at h
  split at h
  · simp at h
  · simp only [Except.ok.injEq] at h
    subst h
    exact hs

lemma spp_insertTeam {db db' : DB} {r : TeamRow}
    (h : db.insertTeam r = .ok db') (hs : singletonPerParent db) :
    singletonPerParent db' := by
  unfold DB.insertTeam at h
  split at h
  · simp at h
  · simp only [Except.ok.injEq] at h
    subst h
    exact hs

lemma spp_insertTeamStats {db db' : DB} {r : TeamStatsRow}
    (h : db.insertTeamStats r = .ok db') (hs : singletonPerParent db) :
    singletonPerParent db' := by
  unfold DB.insertTeamStats at h
  split at h
  · simp at h
  · rename_i hany
    simp only [Except.ok.injEq] at h
    subst h
    exact ⟨atMostOnePer_cons (by simpa using hany) hs.1, hs.2.1, hs.2.2.1, hs.2.2.2⟩

lemma spp_insertMatch {db db' : DB} {r : MatchRow}
    (h : db.insertMatch r = .ok db') (hs : singletonPerParent db) :
    singletonPerParent db' := by
  simp only [DB.insertMatch, Except.ok.injEq] at h
  subst h
  exact hs

lemma spp_insertMatchTeamData {db db' : DB} {r : MatchTeamDataRow}
    (h : db.insertMatchTeamData r = .ok db') (hs : singletonPerParent db) :
    singletonPerParent db' := by
  simp only [DB.insertMatchTeamData, Except.ok.injEq] at h
  subst h
  exact hs

lemma spp_insertPlayer {db db' : DB} {r : PlayerRow}
    (h : db.insertPlayer r = .ok db') (hs : singletonPerParent db) :
    singletonPerParent db' := by
  unfold DB.insertPlayer at h
  split at h
  · simp at h
  · simp only [Except.ok.injEq] at h
    subst h
    exact hs

lemma spp_insertMatchPlayerData {db db' : DB} {r : MatchPlayerDataRow}
    (h : db.insertMatchPlayerData r = .ok db') (hs : singletonPerParent db) :
    singletonPerParent db' := by
  unfold DB.insertMatchPlayerData at h
  split at h
  · simp at h
  · simp only [Except.ok.injEq] at h
    subst h
    exact hs

lemma spp_insertWarTournamentWinners {db db' : DB} {r : WarTournamentWinnersRow}
    (h : db.insertWarTournamentWinners r = .ok db') (hs : singletonPerParent db) :
    singletonPerParent db' := by
  unfold DB.insertWarTournamentWinners at h
  split at h
  · simp at h
  · rename_i hany
    simp only [Except.ok.injEq] at h
    subst h
    exact ⟨hs.1, hs.2.1, atMostOnePer_cons (by simpa using hany) hs.2.2.1, hs.2.2.2⟩

lemma spp_insertEvent {db db' : DB} {r : EventRow}
    (h : db.insertEvent r = .ok db') (hs : singletonPerParent db) :
    singletonPerParent db' := by
  simp only [DB.insertEvent, Except.ok.injEq] at h
  subst h
  exact hs

lemma spp_insertMogiTournamentWinners {db db' : DB} {r : MogiTournamentWinnersRow}
    (h : db.insertMogiTournamentWinners r = .ok db') (hs : singletonPerParent db) :
    singletonPerParent db' := by
  unfold DB.insertMogiTournamentWinners at h
  split at h
  · simp at h
  · rename_i hany
    simp only [Except.ok.injEq] at h
    subst h
    exact ⟨hs.1, hs.2.1, hs.2.2.1, atMostOnePer_cons (by simpa using hany) hs.2.2.2⟩

lemma spp_insertEventPlayerData {db db' : DB} {r : EventPlayerDataRow}
    (h : db.insertEventPlayerData r = .ok db') (hs : singletonPerParent db) :
    singletonPerParent db' := by
  unfold DB.insertEventPlayerData at h
  split at h
  · simp at h
  · simp only [Except.ok.injEq] at h
    subst h
    exact hs

lemma spp_insertEventPlayerStats {db db' : DB} {r : EventPlayerStatsRow}
    (h : db.insertEventPlayerStats r = .ok db') (hs : singletonPerParent db) :
    singletonPerParent db' := by
  unfold DB.insertEventPlayerStats at h
  split at h
  · simp at h
  · rename_i hany
    simp only [Except.ok.injEq] at h
    subst h
    exact ⟨hs.1, atMostOnePer_cons (by simpa using hany) hs.2.1, hs.2.2.1, hs.2.2.2⟩

lemma spp_insertApiKeys {db db' : DB} {r : ApiKeysRow}
    (h : db.insertApiKeys r = .ok db') (hs : singletonPerParent db) :
    singletonPerParent db' := by
  unfold DB.insertApiKeys at h
  split at h
  · simp at h
  · simp only [Except.ok.injEq] at h
    subst h
    exact hs

lemma spp_insertPermissions {db db' : DB} {r : PermissionsRow}
    (h : db.insertPermissions r = .ok db') (hs : singletonPerParent db) :
    singletonPerParent db' := by
  unfold DB.insertPermissions at h
  split at h
  · simp at h
  · simp only [Except.ok.injEq] at h
    subst h
    exact hs

lemma spp_insertPlayerPermissions {db db' : DB} {r : PlayerPermissionsRow}
    (h : db.insertPlayerPermissions r = .ok db') (hs : singletonPerParent db) :
    singletonPerParent db' := by
  unfold DB.insertPlayerPermissions at h
  split at h
  · simp at h
  · simp only [Except.ok.injEq] at h
    subst h
    exact hs

lemma spp_deleteTeam (db : DB) (t : Nat) (hs : singletonPerParent db) :
    singletonPerParent (db.deleteTeam t) := by
  unfold DB.deleteTeam
  exact ⟨atMostOnePer_filter hs.1 _, atMostOnePer_filter hs.2.1 _,
         atMostOnePer_filter hs.2.2.1 _, hs.2.2.2⟩

lemma spp_deleteTournament (db : DB) (t : Nat) (hs : singletonPerParent db) :
    singletonPerParent (db.deleteTournament t) := by
  unfold DB.deleteTournament
  exact ⟨hs.1, hs.2.1, atMostOnePer_filter hs.2.2.1 _, atMostOnePer_filter hs.2.2.2 _⟩

/-- Database states reachable from the empty database through the embedded
operations (constraint-checked inserts and cascade deletions). -/
inductive Reachable : DB → Prop where
  | empty : Reachable emptyDB
  | insertTournament {db db' : DB} {r : TournamentRow} :
      Reachable db → db.insertTournament r = .ok db' → Reachable db'
  | insertTeam {db db' : DB} {r : TeamRow} :
      Reachable db → db.insertTeam r = .ok db' → Reachable db'
  | insertTeamStats {db db' : DB} {r : TeamStatsRow} :
      Reachable db → db.insertTeamStats r = .ok db' → Reachable db'
  | insertMatch {db db' : DB} {r : MatchRow} :
      Reachable db → db.insertMatch r = .ok db' → Reachable db'
  | insertMatchTeamData {db db' : DB} {r : MatchTeamDataRow} :
      Reachable db → db.insertMatchTeamData r = .ok db' → Reachable db'
  | insertPlayer {db db' : DB} {r : PlayerRow} :
      Reachable db → db.insertPlayer r = .ok db' → Reachable db'
  | insertMatchPlayerData {db db' : DB} {r : MatchPlayerDataRow} :
      Reachable db → db.insertMatchPlayerData r = .ok db' → Reachable db'
  | insertWarTournamentWinners {db db' : DB} {r : WarTournamentWinnersRow} :
      Reachable db → db.insertWarTournamentWinners r = .ok db' → Reachable db'
  | insertEvent {db db' : DB} {r : EventRow} :
      Reachable db → db.insertEvent r = .ok db' → Reachable db'
  | insertMogiTournamentWinners {db db' : DB} {r : MogiTournamentWinnersRow} :
      Reachable db → db.insertMogiTournamentWinners r = .ok db' → Reachable db'
  | insertEventPlayerData {db db' : DB} {r : EventPlayerDataRow} :
      Reachable db → db.insertEventPlayerData r = .ok db' → Reachable db'
  | insertEventPlayerStats {db db' : DB} {r : EventPlayerStatsRow} :
      Reachable db → db.insertEventPlayerStats r = .ok db' → Reachable db'
  | insertApiKeys {db db' : DB} {r : ApiKeysRow} :
      Reachable db → db.insertApiKeys r = .ok db' → Reachable db'
  | insertPermissions {db db' : DB} {r : PermissionsRow} :
      Reachable db → db.insertPermissions r = .ok db' → Reachable db'
  | insertPlayerPermissions {db db' : DB} {r : PlayerPermissionsRow} :
      Reachable db → db.insertPlayerPermissions r = .ok db' → Reachable db'
  | deleteTeam {db : DB} {t : Nat} :
      Reachable db → Reachable (db.deleteTeam t)
  | deleteTournament {db : DB} {t : Nat} :
      Reachable db → Reachable (db.deleteTournament t)

lemma reachable_singletonPerParent {db : DB} (h : Reachable db) : singletonPerParent db := by
  induction h with
  | empty =>
      exact ⟨atMostOnePer_nil _, atMostOnePer_nil _, atMostOnePer_nil _, atMostOnePer_nil _⟩
  | insertTournament _ h ih => exact spp_insertTournament h ih
  | insertTeam _ h ih => exact spp_insertTeam h ih
  | insertTeamStats _ h ih => exact spp_insertTeamStats h ih
  | insertMatch _ h ih => exact spp_insertMatch h ih
  | insertMatchTeamData _ h ih => exact spp_insertMatchTeamData h ih
  | insertPlayer _ h ih => exact spp_insertPlayer h ih
  | insertMatchPlayerData _ h ih => exact spp_insertMatchPlayerData h ih
  | insertWarTournamentWinners _ h ih => exact spp_insertWarTournamentWinners h ih
  | insertEvent _ h ih => exact spp_insertEvent h ih
  | insertMogiTournamentWinners _ h ih => exact spp_insertMogiTournamentWinners h ih
  | insertEventPlayerData _ h ih => exact spp_insertEventPlayerData h ih
  | insertEventPlayerStats _ h ih => exact spp_insertEventPlayerStats h ih
  | insertApiKeys _ h ih => exact spp_insertApiKeys h ih
  | insertPermissions _ h ih => exact spp_insertPermissions h ih
  | insertPlayerPermissions _ h ih => exact spp_insertPlayerPermissions h ih
  | deleteTeam _ ih => exact spp_deleteTeam _ _ ih
  | deleteTournament _ ih => exact spp_deleteTournament _ _ ih

deriving instance DecidableEq for Except

lemma mem_fieldErrs {f f' : String} {e : ValidationErr} {r : Except ValidationErr Unit} :
    (f, e) ∈ fieldErrs f' r ↔ f = f' ∧ r = .error e := by
  cases r with
  | ok u => simp [fieldErrs]
  | error e' =>
      simp only [fieldErrs, List.mem_singleton, Prod.mk.injEq, Except.error.injEq]
      constructor
      · rintro ⟨rfl, rfl⟩
        exact ⟨rfl, rfl⟩
      · rintro ⟨rfl, rfl⟩
        exact ⟨rfl, rfl⟩

/-- C1: the friend-code validator accepts a string exactly when the whole
string is three groups of four decimal digits separated by hyphens, with no
extra characters; in particular it accepts "1234-5678-9012" and rejects
"1234-5678-901", "abcd-efgh-ijkl" and " 1234-5678-9012". -/
theorem claim_C1_friend_code_validator :
    (∀ s : String, fc_validator s = .ok () ↔ specFriendCode s) ∧
    fc_validator "1234-5678-9012" = .ok () ∧
    fc_validator "1234-5678-901" ≠ .ok () ∧
    fc_validator "abcd-efgh-ijkl" ≠ .ok () ∧
    fc_validator " 1234-5678-9012" ≠ .ok () := by
  refine ⟨fc_validator_ok_iff, by decide, by decide, by decide, by decide⟩

/-- C4: `Match.clean` raises a validation error exactly when the two team
references of the match are identical. -/
theorem claim_C4_match_self_play (m : MatchRow) :
    (∃ e, MatchRow.clean m = .error e) ↔ m.team_one = m.team_two := by
  unfold MatchRow.clean
  by_cases h : m.team_one = m.team_two
  · simp [h]
  · simp [h]

/-- C5: the race-count validator accepts exactly the integers in `[0, 12]`
(accepting 0 and 12, rejecting -1 and 13), and the very same validator is what
validation of `MatchPlayerData` and `EventPlayerData` applies to
`races_played`, `subbed_in` and `subbed_out`, and what validation of `Event`
applies to `event_race_amount`. -/
theorem claim_C5_race_count_validator :
    (∀ n : Int, num_races_validator n = .ok () ↔ 0 ≤ n ∧ n ≤ 12) ∧
    num_races_validator 0 = .ok () ∧
    num_races_validator 12 = .ok () ∧
    num_races_validator (-1) ≠ .ok () ∧
    num_races_validator 13 ≠ .ok () ∧
    (∀ (r : MatchPlayerDataRow) (e : ValidationErr),
      (("races_played", e) ∈ r.fullClean ↔ num_races_validator r.races_played = .error e) ∧
      (("subbed_in", e) ∈ r.fullClean ↔ num_races_validator r.subbed_in = .error e) ∧
      (("subbed_out", e) ∈ r.fullClean ↔ num_races_validator r.subbed_out = .error e)) ∧
    (∀ (r : EventPlayerDataRow) (e : ValidationErr),
      (("races_played", e) ∈ r.fullClean ↔ num_races_validator r.races_played = .error e) ∧
      (("subbed_in", e) ∈ r.fullClean ↔ num_races_validator r.subbed_in = .error e) ∧
      (("subbed_out", e) ∈ r.fullClean ↔ num_races_validator r.subbed_out = .error e)) ∧
    (∀ (r : EventRow) (e : ValidationErr),
      ("event_race_amount", e) ∈ r.fullClean ↔
        num_races_validator r.event_race_amount = .error e) := by
  refine ⟨?_, by decide, by decide, by decide, by decide, ?_, ?_, ?_⟩
  · intro n
    unfold num_races_validator
    by_cases h : (decide (n < 0) || decide (n > 12)) = true
    · rw [if_pos h]
      simp only [Bool.or_eq_true, decide_eq_true_eq] at h
      constructor
      · intro hh
        exact absurd hh (by simp)
      · intro hh
        exfalso
        rcases h with h' | h' <;> omega
    · rw [if_neg h]
      simp only [Bool.or_eq_true, decide_eq_true_eq, not_or, not_lt] at h
      constructor
      · intro _
        omega
      · intro _
        rfl
  · intro r e
    refine ⟨?_, ?_, ?_⟩ <;>
      simp [MatchPlayerDataRow.fullClean, List.mem_append, mem_fieldErrs]
  · intro r e
    refine ⟨?_, ?_, ?_⟩ <;>
      simp [EventPlayerDataRow.fullClean, List.mem_append, mem_fieldErrs]
  · intro r e
    simp [EventRow.fullClean, List.mem_append, mem_fieldErrs]

/-- C9: validation of `EventPlayerData` rejects a negative `before_event_mmr`
or `after_event_mmr` (the `PositiveIntegerField` bound accepts exactly the
non-negative integers), while no MMR aggregate field of `TeamStats` or
`EventPlayerStats` carries any validator, so those rows validate for every
integer value, negative included. -/
theorem claim_C9_mmr_sign_constraints :
    (∀ n : Int, positiveIntFieldCheck n = .ok () ↔ 0 ≤ n) ∧
    (∀ (r : EventPlayerDataRow) (e : ValidationErr),
      (("before_event_mmr", e) ∈ r.fullClean ↔
        positiveIntFieldCheck r.before_event_mmr = .error e) ∧
      (("after_event_mmr", e) ∈ r.fullClean ↔
        positiveIntFieldCheck r.after_event_mmr = .error e)) ∧
    (∀ r : TeamStatsRow, r.fullClean = []) ∧
    (∀ r : EventPlayerStatsRow, r.fullClean = []) := by
  refine ⟨?_, ?_, fun _ => rfl, fun _ => rfl⟩
  · intro n
    unfold positiveIntFieldCheck
    by_cases h : n < 0
    · rw [if_pos (by simpa using h)]
      constructor
      · intro hh
        exact absurd hh (by simp)
      · intro hh
        exfalso
        omega
    · rw [if_neg (by simpa using h)]
      constructor
      · intro _
        omega
      · intro _
        rfl
  · intro r e
    refine ⟨?_, ?_⟩ <;>
      simp [EventPlayerDataRow.fullClean, List.mem_append, mem_fieldErrs]

/-- C10: records created without explicit values receive the declared
defaults: a `Tournament`'s type is `MOGI`, a `Player`'s division is `IRON`
with 0 strikes, an `Event`'s format is `2V2`, and every MMR/win/loss/score/
total counter of `TeamStats` and `EventPlayerStats` is 0. -/
theorem claim_C10_field_defaults
    (i1 : Nat) (nm : String) (dt : Int)
    (i2 t2 : Nat) (disc : Int) (pn cty : String) (ncd : Int) (fcv : String)
    (i3 : Nat) (ra ed : Int) (img : String) (tr : Nat) (ti su : Int)
    (tk pk : Nat) :
    ({ id := i1, tournament_name := nm, tournament_date := dt } :
        TournamentRow).tournament_type = "MOGI" ∧
    (({ id := i2, team := t2, discord := disc, player_name := pn, country := cty,
        name_change_date := ncd, friend_code := fcv } : PlayerRow).division = "IRON" ∧
     ({ id := i2, team := t2, discord := disc, player_name := pn, country := cty,
        name_change_date := ncd, friend_code := fcv } : PlayerRow).strikes = 0) ∧
    ({ id := i3, event_race_amount := ra, event_date := ed, event_table_image := img,
       tournament := tr, tier := ti, subs := su } : EventRow).event_format = "2V2" ∧
    (∀ f : TeamStatsRow → Int,
      f ∈ [TeamStatsRow.base_mmr, TeamStatsRow.current_mmr, TeamStatsRow.peak_mmr,
           TeamStatsRow.lowest_mmr, TeamStatsRow.max_gain_mmr, TeamStatsRow.max_loss_mmr,
           TeamStatsRow.diff_last_ten_mmr, TeamStatsRow.wins, TeamStatsRow.losses,
           TeamStatsRow.top_score, TeamStatsRow.total_matches] →
        f { team := tk } = 0) ∧
    (∀ f : EventPlayerStatsRow → Int,
      f ∈ [EventPlayerStatsRow.base_mmr, EventPlayerStatsRow.current_mmr,
           EventPlayerStatsRow.peak_mmr, EventPlayerStatsRow.lowest_mmr,
           EventPlayerStatsRow.max_gain_mmr, EventPlayerStatsRow.max_loss_mmr,
           EventPlayerStatsRow.diff_last_ten_mmr, EventPlayerStatsRow.wins,
           EventPlayerStatsRow.losses, EventPlayerStatsRow.top_score,
           EventPlayerStatsRow.total_events] →
        f { player := pk } = 0) := by
  refine ⟨rfl, ⟨rfl, rfl⟩, rfl, ?_, ?_⟩
  · intro f hf
    simp only [List.mem_cons, List.not_mem_nil, or_false] at hf
    rcases hf with rfl | rfl | rfl | rfl | rfl | rfl | rfl | rfl | rfl | rfl | rfl <;> rfl
  · intro f hf
    simp only [List.mem_cons, List.not_mem_nil, or_false] at hf
    rcases hf with rfl | rfl | rfl | rfl | rfl | rfl | rfl | rfl | rfl | rfl | rfl <;> rfl

/-- C3: inserting a second `MatchPlayerData` row with the `(player, match)`
pair of an existing row fails with the `unique_match_player` conflict, a
second `EventPlayerData` row with an existing `(event, player)` pair fails
with `unique_event_player`, and a second `PlayerPermissions` row with an
existing `(player, permission)` pair fails with `unique_player_permission`;
a failing insert yields no new state, so the existing row is untouched. -/
theorem claim_C3_composite_unique_inserts
    (db : DB) (rm rm' : MatchPlayerDataRow) (re re' : EventPlayerDataRow)
    (rp rp' : PlayerPermissionsRow)
    (hm : rm' ∈ db.matchPlayerData) (hm1 : rm.player = rm'.player)
    (hm2 : rm.matchId = rm'.matchId)
    (he : re' ∈ db.eventPlayerData) (he1 : re.event = re'.event) (he2 : re.player = re'.player)
    (hp : rp' ∈ db.playerPermissions) (hp1 : rp.player = rp'.player)
    (hp2 : rp.permission = rp'.permission) :
    db.insertMatchPlayerData rm = .error (.uniqueViolation "unique_match_player") ∧
    db.insertEventPlayerData re = .error (.uniqueViolation "unique_event_player") ∧
    db.insertPlayerPermissions rp = .error (.uniqueViolation "unique_player_permission") := by
  refine ⟨?_, ?_, ?_⟩
  · unfold DB.insertMatchPlayerData
    rw [if_pos (List.any_eq_true.mpr ⟨rm', hm, by simp [hm1, hm2]⟩)]
  · unfold DB.insertEventPlayerData
    rw [if_pos (List.any_eq_true.mpr ⟨re', he, by simp [he1, he2]⟩)]
  · unfold DB.insertPlayerPermissions
    rw [if_pos (List.any_eq_true.mpr ⟨rp', hp, by simp [hp1, hp2]⟩)]

/-- Concrete database used by the witness of the composite-uniqueness claim. -/
def dbC3 : DB :=
  { matchPlayerData := [{ id := 1, player := 7, matchId := 9, player_score := 10,
                          races_played := 12, subbed_in := 0, subbed_out := 0 }],
    eventPlayerData := [{ id := 1, event := 3, player := 7, team := "A", ranking := none,
                          multiplier := 1.0, score := 50, races_played := 12, subbed_in := 0,
                          subbed_out := 0, before_event_mmr := 1000, after_event_mmr := 1100,
                          before_division := "IRON", after_division := "SILVER", win := true }],
    playerPermissions := [{ id := 1, player := 7, permission := 2 }] }

/-- Second `MatchPlayerData` row with the `(player, match)` pair of `dbC3`. -/
def mpdDup : MatchPlayerDataRow :=
  { id := 2, player := 7, matchId := 9, player_score := 0,
    races_played := 0, subbed_in := 0, subbed_out := 0 }

/-- Second `EventPlayerData` row with the `(event, player)` pair of `dbC3`. -/
def epdDup : EventPlayerDataRow :=
  { id := 2, event := 3, player := 7, team := "B", ranking := none,
    multiplier := 1.0, score := 0, races_played := 0, subbed_in := 0, subbed_out := 0,
    before_event_mmr := 0, after_event_mmr := 0, before_division := "IRON",
    after_division := "IRON", win := false }

/-- Second `PlayerPermissions` row with the `(player, permission)` pair of `dbC3`. -/
def ppDup : PlayerPermissionsRow := { id := 2, player := 7, permission := 2 }

theorem claim_C3_composite_unique_inserts_witness :
    dbC3.insertMatchPlayerData mpdDup = .error (.uniqueViolation "unique_match_player") ∧
    dbC3.insertEventPlayerData epdDup = .error (.uniqueViolation "unique_event_player") ∧
    dbC3.insertPlayerPermissions ppDup = .error (.uniqueViolation "unique_player_permission") :=
  claim_C3_composite_unique_inserts dbC3 mpdDup _ epdDup _ ppDup _
    (List.mem_cons_self _ _) rfl rfl
    (List.mem_cons_self _ _) rfl rfl
    (List.mem_cons_self _ _) rfl rfl

/-- C6: in every reachable database state there is at most one `TeamStats` row
per team, at most one `EventPlayerStats` row per player, and at most one
`WarTournamentWinners` and one `MogiTournamentWinners` row per tournament:
in each of these tables the parent reference is the unique identifying key
(`primary_key=True` on the parent foreign key). -/
theorem claim_C6_singleton_per_parent (db : DB) (h : Reachable db) :
    (∀ k, (db.teamStats.filter (fun r => r.team == k)).length ≤ 1) ∧
    (∀ k, (db.eventPlayerStats.filter (fun r => r.player == k)).length ≤ 1) ∧
    (∀ k, (db.warWinners.filter (fun r => r.tournament == k)).length ≤ 1) ∧
    (∀ k, (db.mogiWinners.filter (fun r => r.tournament == k)).length ≤ 1) :=
  reachable_singletonPerParent h

theorem claim_C6_singleton_per_parent_witness :
    ((({ teamStats := [{ team := 3 }] } : DB).teamStats.filter
        (fun r => r.team == 3)).length ≤ 1) :=
  (claim_C6_singleton_per_parent { teamStats := [{ team := 3 }] }
    (Reachable.insertTeamStats (r := { team := 3 }) Reachable.empty rfl)).1 3

lemma num_races_error_params {n : Int} {e : ValidationErr}
    (h : num_races_validator n = .error e) : ("value", toString n) ∈ e.params := by
  unfold num_races_validator at h
  split at h
  · simp only [Except.error.injEq] at h
    subst h
    simp
  · simp at h

lemma fc_error_params {s : String} {e : ValidationErr}
    (h : fc_validator s = .error e) :
    ("value", s) ∈ e.params ∧ e.message = s ++ " is not a valid friend code" := by
  unfold fc_validator at h
  split at h
  · simp at h
  · simp only [Except.error.injEq] at h
    subst h
    simp

lemma clean_error_params {m : MatchRow} {e : ValidationErr}
    (h : MatchRow.clean m = .error e) :
    ("team_one", toString m.team_one) ∈ e.params ∧
    ("team_two", toString m.team_two) ∈ e.params := by
  unfold MatchRow.clean at h
  split at h
  · simp only [Except.error.injEq] at h
    subst h
    simp
  · simp at h

lemma choice_error_params {codes : List String} {v : String} {e : ValidationErr}
    (h : validateChoice codes v = .error e) : ("value", v) ∈ e.params := by
  unfold validateChoice at h
  split at h
  · simp at h
  · simp only [Except.error.injEq] at h
    subst h
    simp

/-- C7: each rejection carries the offending value in the error's `params`
(`Match.clean` additionally names both offending fields there), `full_clean`
attributes each field-validator error to the offending field's name next to
that value, and every validator is a pure predicate check: its verdict is a
boolean function of the examined value alone. -/
theorem claim_C7_error_reporting :
    (∀ (n : Int) (e : ValidationErr), num_races_validator n = .error e →
      ("value", toString n) ∈ e.params) ∧
    (∀ (s : String) (e : ValidationErr), fc_validator s = .error e →
      ("value", s) ∈ e.params ∧ e.message = s ++ " is not a valid friend code") ∧
    (∀ (m : MatchRow) (e : ValidationErr), MatchRow.clean m = .error e →
      ("team_one", toString m.team_one) ∈ e.params ∧
      ("team_two", toString m.team_two) ∈ e.params) ∧
    (∀ (r : MatchPlayerDataRow) (f : String) (e : ValidationErr), (f, e) ∈ r.fullClean →
      (f = "races_played" ∧ ("value", toString r.races_played) ∈ e.params) ∨
      (f = "subbed_in" ∧ ("value", toString r.subbed_in) ∈ e.params) ∨
      (f = "subbed_out" ∧ ("value", toString r.subbed_out) ∈ e.params)) ∧
    (∀ (p : PlayerRow) (f : String) (e : ValidationErr), (f, e) ∈ p.fullClean →
      (f = "division" ∧ ("value", p.division) ∈ e.params) ∨
      (f = "friend_code" ∧ ("value", p.friend_code) ∈ e.params)) ∧
    (∀ n : Int, (num_races_validator n).isOk = !(decide (n < 0) || decide (n > 12))) ∧
    (∀ s : String, (fc_validator s).isOk = fcMatches s) ∧
    (∀ m : MatchRow, (MatchRow.clean m).isOk = (m.team_one != m.team_two)) := by
  refine ⟨fun n e h => num_races_error_params h,
          fun s e h => fc_error_params h,
          fun m e h => clean_error_params h, ?_, ?_, ?_, ?_, ?_⟩
  · intro r f e h
    simp only [MatchPlayerDataRow.fullClean, List.mem_append, mem_fieldErrs] at h
    rcases h with (⟨rfl, herr⟩ | ⟨rfl, herr⟩) | ⟨rfl, herr⟩
    · exact Or.inl ⟨rfl, num_races_error_params herr⟩
    · exact Or.inr (Or.inl ⟨rfl, num_races_error_params herr⟩)
    · exact Or.inr (Or.inr ⟨rfl, num_races_error_params herr⟩)
  · intro p f e h
    simp only [PlayerRow.fullClean, List.mem_append, mem_fieldErrs] at h
    rcases h with ⟨rfl, herr⟩ | ⟨rfl, herr⟩
    · exact Or.inl ⟨rfl, choice_error_params herr⟩
    · exact Or.inr ⟨rfl, (fc_error_params herr).1⟩
  · intro n
    unfold num_races_validator
    by_cases h : (decide (n < 0) || decide (n > 12)) = true
    · rw [if_pos h, h]
      rfl
    · rw [if_neg h]
      simp only [Bool.not_eq_true] at h
      rw [h]
      rfl
  · intro s
    unfold fc_validator
    by_cases h : fcMatches s = true
    · rw [if_pos h, h]
      rfl
    · rw [if_neg h]
      simp only [Bool.not_eq_true] at h
      rw [h]
      rfl
  · intro m
    unfold MatchRow.clean
    by_cases h : m.team_one = m.team_two
    · simp [Except.isOk, Except.toBool, h]
    · rw [if_neg (by simpa using h)]
      simp only [Except.isOk, Except.toBool]
      exact (bne_iff_ne.mpr h).symm

/-- The error `num_races_validator` produces at 13. -/
def e13 : ValidationErr :=
  ⟨"cannot have less than 0 or more than 12 races", [("value", "13")]⟩

/-- The error `fc_validator` produces at "abc". -/
def eAbc : ValidationErr := ⟨"abc is not a valid friend code", [("value", "abc")]⟩

/-- A match between team 5 and itself. -/
def mClash : MatchRow :=
  { id := 1, team_one := 5, team_two := 5, match_date := 0,
    match_table_image := "", tournament := 1 }

/-- The error `Match.clean` produces on `mClash`. -/
def eClash : ValidationErr :=
  ⟨"a team cannot war itself outside of inclans", [("team_one", "5"), ("team_two", "5")]⟩

/-- A `MatchPlayerData` row with 13 races played. -/
def r13 : MatchPlayerDataRow :=
  { id := 1, player := 1, matchId := 1, player_score := 0,
    races_played := 13, subbed_in := 0, subbed_out := 0 }

/-- A `Player` row with an invalid friend code. -/
def pBad : PlayerRow :=
  { id := 1, team := 1, discord := 1, player_name := "x", country := "US",
    name_change_date := 0, friend_code := "bad" }

/-- The error `fc_validator` produces at "bad". -/
def eBad : ValidationErr := ⟨"bad is not a valid friend code", [("value", "bad")]⟩

theorem claim_C7_error_reporting_witness :
    ("value", toString (13 : Int)) ∈ e13.params ∧
    (("value", "abc") ∈ eAbc.params ∧
      eAbc.message = "abc" ++ " is not a valid friend code") ∧
    (("team_one", toString mClash.team_one) ∈ eClash.params ∧
      ("team_two", toString mClash.team_two) ∈ eClash.params) ∧
    ((("races_played" : String) = "races_played" ∧
        ("value", toString r13.races_played) ∈ e13.params) ∨
      (("races_played" : String) = "subbed_in" ∧
        ("value", toString r13.subbed_in) ∈ e13.params) ∨
      (("races_played" : String) = "subbed_out" ∧
        ("value", toString r13.subbed_out) ∈ e13.params)) ∧
    ((("friend_code" : String) = "division" ∧ ("value", pBad.division) ∈ eBad.params) ∨
      (("friend_code" : String) = "friend_code" ∧ ("value", pBad.friend_code) ∈ eBad.params)) :=
  ⟨claim_C7_error_reporting.1 13 e13 (by decide),
   claim_C7_error_reporting.2.1 "abc" eAbc (by decide),
   claim_C7_error_reporting.2.2.1 mClash eClash (by decide),
   claim_C7_error_reporting.2.2.2.1 r13 "races_played" e13 (by decide),
   claim_C7_error_reporting.2.2.2.2.1 pBad "friend_code" eBad (by decide)⟩

/-- Django write path of `Player.division` (a text field with
`choices=PlayerDivision.choices`): the value is validated against the declared
codes before being stored in the row. -/
def PlayerRow.storeDivision (p : PlayerRow) (s : String) : Except ValidationErr PlayerRow :=
  match validateChoice PlayerDivision.codes s with
  | .ok _ => .ok { p with division := s }
  | .error e => .error e

/-- Django write path of `Event.event_format` (a text field with
`choices=EventFormat.choices`). -/
def EventRow.storeEventFormat (ev : EventRow) (s : String) : Except ValidationErr EventRow :=
  match validateChoice EventFormat.codes s with
  | .ok _ => .ok { ev with event_format := s }
  | .error e => .error e

lemma contains_of_mem {l : List String} {a : String} (h : a ∈ l) : l.contains a = true :=
  List.elem_iff.mpr h

lemma contains_eq_false_of_not_mem {l : List String} {a : String} (h : a ∉ l) :
    l.contains a = false := by
  by_cases hc : l.contains a = true
  · exact absurd (List.elem_iff.mp hc) h
  · simpa using hc

/-- C8: every declared `PlayerDivision` or `EventFormat` code round-trips
through a validated write — the write succeeds and reading the stored field
back yields the code unchanged — while writing a string that is not a declared
code is rejected with a validation error. -/
theorem claim_C8_choice_code_round_trip :
    (∀ (p : PlayerRow) (c : String), c ∈ PlayerDivision.codes →
      ∃ p', p.storeDivision c = .ok p' ∧ p'.division = c) ∧
    (∀ (p : PlayerRow) (s : String), s ∉ PlayerDivision.codes →
      ∃ e, p.storeDivision s = .error e) ∧
    (∀ (ev : EventRow) (c : String), c ∈ EventFormat.codes →
      ∃ ev', ev.storeEventFormat c = .ok ev' ∧ ev'.event_format = c) ∧
    (∀ (ev : EventRow) (s : String), s ∉ EventFormat.codes →
      ∃ e, ev.storeEventFormat s = .error e) := by
  refine ⟨?_, ?_, ?_, ?_⟩
  · intro p c hc
    refine ⟨{ p with division := c }, ?_, rfl⟩
    unfold PlayerRow.storeDivision validateChoice
    rw [if_pos (contains_of_mem hc)]
  · intro p s hs
    refine ⟨⟨"Value " ++ s ++ " is not a valid choice.", [("value", s)]⟩, ?_⟩
    unfold PlayerRow.storeDivision validateChoice
    rw [if_neg (by simpa using hs)]
  · intro ev c hc
    refine ⟨{ ev with event_format := c }, ?_, rfl⟩
    unfold EventRow.storeEventFormat validateChoice
    rw [if_pos (contains_of_mem hc)]
  · intro ev s hs
    refine ⟨⟨"Value " ++ s ++ " is not a valid choice.", [("value", s)]⟩, ?_⟩
    unfold EventRow.storeEventFormat validateChoice
    rw [if_neg (by simpa using hs)]

/-- A `Player` row used by the round-trip witness. -/
def pW : PlayerRow :=
  { id := 2, team := 1, discord := 2, player_name := "y", country := "JP",
    name_change_date := 0, friend_code := "1234-5678-9012" }

/-- An `Event` row used by the round-trip witness. -/
def evW : EventRow :=
  { id := 1, event_race_amount := 12, event_date := 0, event_table_image := "",
    tournament := 1, tier := 1, subs := 0 }

theorem claim_C8_choice_code_round_trip_witness :
    (∃ p', pW.storeDivision "GOLD" = .ok p' ∧ p'.division = "GOLD") ∧
    (∃ e, pW.storeDivision "WOOD" = .error e) ∧
    (∃ ev', evW.storeEventFormat "6V6" = .ok ev' ∧ ev'.event_format = "6V6") ∧
    (∃ e, evW.storeEventFormat "5V5" = .error e) :=
  ⟨claim_C8_choice_code_round_trip.1 pW "GOLD" (by decide),
   claim_C8_choice_code_round_trip.2.1 pW "WOOD" (by decide),
   claim_C8_choice_code_round_trip.2.2.1 evW "6V6" (by decide),
   claim_C8_choice_code_round_trip.2.2.2 evW "5V5" (by decide)⟩

/-- C2: after `deleteTeam db t` no dependent row referencing team `t` remains —
no `TeamStats` row for `t`, no `Player` of `t`, no `Match` with `t` on either
side, no `MatchTeamData` for `t` or for a match that referenced `t`, and no
`MatchPlayerData` for such a match (nor for a deleted player of `t`) — and
after `deleteTournament db t` no `Match`, `Event`, `WarTournamentWinners` or
`MogiTournamentWinners` row of tournament `t` remains, nor any
`MatchTeamData`/`MatchPlayerData` row of a deleted match. -/
theorem claim_C2_cascade_deletion (db : DB) (t : Nat) :
    (∀ r ∈ (db.deleteTeam t).teamStats, r.team ≠ t) ∧
    (∀ p ∈ (db.deleteTeam t).players, p.team ≠ t) ∧
    (∀ m ∈ (db.deleteTeam t).matchRows, m.team_one ≠ t ∧ m.team_two ≠ t) ∧
    (∀ r ∈ (db.deleteTeam t).matchTeamData, r.team ≠ t ∧
      ∀ m ∈ db.matchRows, (m.team_one = t ∨ m.team_two = t) → r.matchId ≠ m.id) ∧
    (∀ r ∈ (db.deleteTeam t).matchPlayerData,
      (∀ m ∈ db.matchRows, (m.team_one = t ∨ m.team_two = t) → r.matchId ≠ m.id) ∧
      (∀ p ∈ db.players, p.team = t → r.player ≠ p.id)) ∧
    (∀ x ∈ (db.deleteTeam t).teams, x.id ≠ t) ∧
    (∀ m ∈ (db.deleteTournament t).matchRows, m.tournament ≠ t) ∧
    (∀ e ∈ (db.deleteTournament t).events, e.tournament ≠ t) ∧
    (∀ w ∈ (db.deleteTournament t).warWinners, w.tournament ≠ t) ∧
    (∀ w ∈ (db.deleteTournament t).mogiWinners, w.tournament ≠ t) ∧
    (∀ r ∈ (db.deleteTournament t).matchTeamData,
      ∀ m ∈ db.matchRows, m.tournament = t → r.matchId ≠ m.id) ∧
    (∀ r ∈ (db.deleteTournament t).matchPlayerData,
      ∀ m ∈ db.matchRows, m.tournament = t → r.matchId ≠ m.id) ∧
    (∀ x ∈ (db.deleteTournament t).tournaments, x.id ≠ t) := by
  refine ⟨?_, ?_, ?_, ?_, ?_, ?_, ?_, ?_, ?_, ?_, ?_, ?_, ?_⟩
  · intro r hr
    simpa using (List.mem_filter.mp hr).2
  · intro p hp
    simpa using (List.mem_filter.mp hp).2
  · intro m hm
    simpa using (List.mem_filter.mp hm).2
  · intro r hr
    have h2 := (List.mem_filter.mp hr).2
    simp at h2
    exact ⟨h2.1, fun m hm hc heq => h2.2 m hm hc heq.symm⟩
  · intro r hr
    have h2 := (List.mem_filter.mp hr).2
    simp at h2
    exact ⟨fun m hm hc heq => h2.1 m hm hc heq.symm,
           fun p hp hc heq => h2.2 p hp hc heq.symm⟩
  · intro x hx
    simpa using (List.mem_filter.mp hx).2
  · intro m hm
    simpa using (List.mem_filter.mp hm).2
  · intro e he
    simpa using (List.mem_filter.mp he).2
  · intro w hw
    have h2 := (List.mem_filter.mp hw).2
    simp at h2
    exact h2.1
  · intro w hw
    have h2 := (List.mem_filter.mp hw).2
    simp at h2
    exact h2.1
  · intro r hr
    have h2 := (List.mem_filter.mp hr).2
    simp at h2
    exact fun m hm hc heq => h2 m hm hc heq.symm
  · intro r hr
    have h2 := (List.mem_filter.mp hr).2
    simp at h2
    exact fun m hm hc heq => h2 m hm hc heq.symm
  · intro x hx
    simpa using (List.mem_filter.mp hx).2

/-- Concrete database used by the cascade witness: teams 1 and 2 with their
stats, one match of tournament 1 between them and one unrelated match of
tournament 2. -/
def dbC2 : DB :=
  { teams := [{ id := 1, team_name := "A", team_tag := "a", division := 1 },
              { id := 2, team_name := "B", team_tag := "b", division := 1 }],
    teamStats := [{ team := 1 }, { team := 2 }],
    matchRows := [{ id := 5, team_one := 3, team_two := 4, match_date := 0,
                    match_table_image := "", tournament := 2 },
                  { id := 6, team_one := 1, team_two := 2, match_date := 0,
                    match_table_image := "", tournament := 1 }] }

/-- The `TeamStats` row of team 2, which survives deletion of team 1. -/
def tsKeep : TeamStatsRow := { team := 2 }

/-- The match of tournament 2, which survives deletion of tournament 1. -/
def mKeep : MatchRow :=
  { id := 5, team_one := 3, team_two := 4, match_date := 0,
    match_table_image := "", tournament := 2 }

theorem claim_C2_cascade_deletion_witness :
    tsKeep.team ≠ 1 ∧ mKeep.tournament ≠ 1 :=
  ⟨(claim_C2_cascade_deletion dbC2 1).1 tsKeep (by decide),
   (claim_C2_cascade_deletion dbC2 1).2.2.2.2.2.2.1 mKeep (by decide)⟩

theorem claim_C10_field_defaults_witness :
    TeamStatsRow.base_mmr { team := 0 } = 0 ∧
    EventPlayerStatsRow.base_mmr { player := 0 } = 0 :=
  ⟨(claim_C10_field_defaults 0 "" 0 0 0 0 "" "" 0 "" 0 0 0 "" 0 0 0 0 0).2.2.2.1
      TeamStatsRow.base_mmr (List.mem_cons_self _ _),
   (claim_C10_field_defaults 0 "" 0 0 0 0 "" "" 0 "" 0 0 0 "" 0 0 0 0 0).2.2.2.2
      EventPlayerStatsRow.base_mmr (List.mem_cons_self _ _)⟩
